import Mathlib

/-!
Verification of the memory loop detector
(mcp-instrumentation/examples/memory_loop_detection.py).

The Python module is embedded shallowly:

* Query fingerprints: the code hashes the normalized query with
  hashlib.md5 and keeps the first 8 hex digits.  MD5 is implemented here
  over byte lists (Nat values below 256, arithmetic taken mod 2 ^ 32), and
  the implementation was checked against the standard MD5 test vectors.
  Strings are taken as their character (code point) lists, which agrees
  with UTF-8 for the ASCII data used throughout the module.
* Python str.lower / str.strip / str.split are modelled by pyLower,
  pyStrip and pySplit over character lists.
* datetime timestamps are modelled as Nat seconds; datetime.now() becomes
  an explicit now argument threaded through each call.  Python subtracts
  datetimes and compares with a timedelta; Nat truncated subtraction gives
  the same comparisons for monotone clocks.
* The mutable per-detector state (self.states, self.global_patterns) is
  threaded explicitly: every entry-point call maps a detector value to a
  new detector value plus the returned result dictionary.
* Result dictionaries are values of the PyVal type; the loop category the
  classifier chose for a call is additionally surfaced in the CallOut
  record (in the code it is observable through the span attributes and the
  returned dictionary).
* The recursion memory_search -> _perform_memory_operation ->
  memory_search (guarded by depth < 3 in the code) is driven by a fuel
  argument; fuel 4 is enough for every chain the code can produce, and the
  fuel 0 fallback returns the detector unchanged.
* Telemetry (spans, metrics, events) is out of scope and not modelled.
-/

set_option maxRecDepth 2000000

set_option maxHeartbeats 2000000

/-- Bit mask for arithmetic mod 2 ^ 32. -/
def mask32 : Nat := 4294967295

/-- Rotate a 32-bit value left by s bits. -/
def rotl32 (x s : Nat) : Nat := ((x <<< s) ||| (x >>> (32 - s))) &&& mask32

/-- The 64 MD5 round constants, floor (abs (sin (i + 1)) * 2 ^ 32). -/
def md5K : List Nat := [3614090360, 3905402710, 606105819, 3250441966, 4118548399, 1200080426, 2821735955, 4249261313, 1770035416, 2336552879, 4294925233, 2304563134, 1804603682, 4254626195, 2792965006, 1236535329, 4129170786, 3225465664, 643717713, 3921069994, 3593408605, 38016083, 3634488961, 3889429448, 568446438, 3275163606, 4107603335, 1163531501, 2850285829, 4243563512, 1735328473, 2368359562, 4294588738, 2272392833, 1839030562, 4259657740, 2763975236, 1272893353, 4139469664, 3200236656, 681279174, 3936430074, 3572445317, 76029189, 3654602809, 3873151461, 530742520, 3299628645, 4096336452, 1126891415, 2878612391, 4237533241, 1700485571, 2399980690, 4293915773, 2240044497, 1873313359, 4264355552, 2734768916, 1309151649, 4149444226, 3174756917, 718787259, 3951481745]

/-- The MD5 per-round left-rotation amounts. -/
def md5s : List Nat := [7,12,17,22,7,12,17,22,7,12,17,22,7,12,17,22,5,9,14,20,5,9,14,20,5,9,14,20,5,9,14,20,4,11,16,23,4,11,16,23,4,11,16,23,4,11,16,23,6,10,15,21,6,10,15,21,6,10,15,21,6,10,15,21]

/-- Little-endian bytes to a word. -/
def toLEWord (bs : List Nat) : Nat := bs.foldr (fun b acc => b + 256 * acc) 0

/-- The k little-endian bytes of n. -/
def leBytes (k n : Nat) : List Nat := (List.range k).map (fun i => (n >>> (8*i)) &&& 255)

/-- One MD5 round: state (A, B, C, D), message-word accessor M, round index i. -/
def md5Round (M : Nat → Nat) (st : Nat × Nat × Nat × Nat) (i : Nat) : Nat × Nat × Nat × Nat :=
  let A := st.1
  let B := st.2.1
  let C := st.2.2.1
  let D := st.2.2.2
  let F :=
    if i < 16 then (B &&& C) ||| ((B ^^^ mask32) &&& D)
    else if i < 32 then (D &&& B) ||| ((D ^^^ mask32) &&& C)
    else if i < 48 then B ^^^ C ^^^ D
    else C ^^^ (B ||| (D ^^^ mask32))
  let g :=
    if i < 16 then i
    else if i < 32 then (5*i + 1) % 16
    else if i < 48 then (3*i + 5) % 16
    else (7*i) % 16
  let F2 := (F + A + md5K.getD i 0 + M g) &&& mask32
  (D, (B + rotl32 F2 (md5s.getD i 0)) &&& mask32, B, C)

/-- Process one 64-byte block into the running MD5 state. -/
def md5Block (h : Nat × Nat × Nat × Nat) (block : List Nat) : Nat × Nat × Nat × Nat :=
  let M : Nat → Nat := fun g => toLEWord ((block.drop (4*g)).take 4)
  let r := (List.range 64).foldl (md5Round M) h
  ((h.1 + r.1) &&& mask32, (h.2.1 + r.2.1) &&& mask32,
   (h.2.2.1 + r.2.2.1) &&& mask32, (h.2.2.2 + r.2.2.2) &&& mask32)

/-- MD5 padding: 0x80, zeros to 56 mod 64, then the bit length as 8 little-endian bytes. -/
def md5Pad (msg : List Nat) : List Nat :=
  msg ++ [128] ++ List.replicate ((119 - msg.length % 64) % 64) 0
      ++ leBytes 8 ((8 * msg.length) % (2^64))

/-- The 16 MD5 digest bytes of a byte message. -/
def md5Bytes (msg : List Nat) : List Nat :=
  let padded := md5Pad msg
  let blocks := (List.range (padded.length / 64)).map (fun i => (padded.drop (64*i)).take 64)
  let r := blocks.foldl md5Block (1732584193, 4023233417, 2562383102, 271733878)
  leBytes 4 r.1 ++ leBytes 4 r.2.1 ++ leBytes 4 r.2.2.1 ++ leBytes 4 r.2.2.2

/-- Lowercase hex digit of a value below 16. -/
def hexDigit (n : Nat) : Char := if n < 10 then Char.ofNat (48 + n) else Char.ofNat (87 + n)

/-- Two lowercase hex digits of a byte. -/
def byteHex (b : Nat) : List Char := [hexDigit (b / 16), hexDigit (b % 16)]

/-- Bytes of a string: code points, which is UTF-8 for the ASCII data used here. -/
def strBytes (s : String) : List Nat := s.data.map Char.toNat

/-- hashlib.md5(s).hexdigest(). -/
def md5hex (s : String) : String := String.mk ((md5Bytes (strBytes s)).map byteHex).flatten

/-- hashlib.md5(s).hexdigest()[:8], the 8-character fingerprint the code keeps. -/
def md5hex8 (s : String) : String := (md5hex s).take 8

/-- Python str.lower (ASCII data). -/
def pyLower (s : String) : String := String.mk (s.data.map Char.toLower)

/-- Whitespace stripped by Python str.strip: space, tab, newline, CR, VT, FF. -/
def isPySpace (c : Char) : Bool :=
  c == ' ' || c == '\t' || c == '\n' || c == '\r' || c == Char.ofNat 11 || c == Char.ofNat 12

/-- Python str.strip: drop surrounding whitespace. -/
def pyStrip (s : String) : String :=
  String.mk (((s.data.dropWhile isPySpace).reverse.dropWhile isPySpace).reverse)

/-- Split a character list at every occurrence of sep (Python str.split with a separator). -/
def splitChars (sep : Char) : List Char → List (List Char)
  | [] => [[]]
  | c :: rest =>
    if c == sep then [] :: splitChars sep rest
    else
      match splitChars sep rest with
      | [] => [[c]]
      | g :: gs => (c :: g) :: gs

/-- Python s.split(sep) for a one-character separator. -/
def pySplit (sep : Char) (s : String) : List String := (splitChars sep s.data).map String.mk

/-- OperationSignature (memory_loop_detection.py lines 40-52): identity of one
memory operation, with the dataclass field defaults. -/
structure OperationSignature where
  operation : String
  query_hash : String
  timestamp : Nat
  count : Nat := 1
deriving DecidableEq

/-- OperationSignature.from_query (lines 48-52): fingerprint the query with
md5(query.lower().strip())[:8] and record the creation time. -/
def OperationSignature.from_query (operation query : String) (now : Nat) : OperationSignature :=
  { operation := operation, query_hash := md5hex8 (pyStrip (pyLower query)), timestamp := now }

/-- LoopDetectionState (lines 55-63): per-trace detection state.  The
defaultdict(int) of operation_counts is modelled as a total function that is
zero outside the recorded keys. -/
structure LoopDetectionState where
  trace_id : String
  operations : List OperationSignature := []
  operation_counts : String → Nat := fun _ => 0
  depth : Nat := 0
  loop_detected : Bool := false
  loop_signature : Option String := none

/-- A freshly constructed LoopDetectionState(trace_id), all fields at their defaults. -/
def LoopDetectionState.init (trace_id : String) : LoopDetectionState := { trace_id := trace_id }

/-- MemoryLoopDetector (lines 66-79): configuration, the per-trace state store
(a Python dict, modelled as an insertion-ordered association list) and the
cross-trace global pattern set. -/
structure MemoryLoopDetector where
  max_depth : Nat := 10
  max_repeats : Nat := 5
  time_window : Nat := 60
  states : List (String × LoopDetectionState) := []
  global_patterns : List String := []

/-- MemoryLoopDetector.__init__ (lines 69-79): fresh detector with the given
configuration, empty state store and empty global pattern set. -/
def MemoryLoopDetector.mk0 (max_depth max_repeats time_window_seconds : Nat) : MemoryLoopDetector :=
  { max_depth := max_depth, max_repeats := max_repeats, time_window := time_window_seconds }

/-- Dictionary lookup self.states[trace_id] (first association-list entry). -/
def find_state (states : List (String × LoopDetectionState)) (trace_id : String) :
    Option LoopDetectionState :=
  (states.find? (fun p => p.1 == trace_id)).map (fun p => p.2)

/-- Lines 102-105: if trace_id not in self.states, insert a fresh state;
returns the (possibly extended) store together with the state for trace_id. -/
def get_or_create (states : List (String × LoopDetectionState)) (trace_id : String) :
    List (String × LoopDetectionState) × LoopDetectionState :=
  match find_state states trace_id with
  | some s => (states, s)
  | none => (states ++ [(trace_id, LoopDetectionState.init trace_id)], LoopDetectionState.init trace_id)

/-- Store the (mutated) state back under trace_id; in Python the dict entry
aliases the mutated object. -/
def set_state (states : List (String × LoopDetectionState)) (trace_id : String)
    (s : LoopDetectionState) : List (String × LoopDetectionState) :=
  states.map (fun p => if p.1 == trace_id then (trace_id, s) else p)

/-- Line 108: state.depth = max(state.depth, depth). -/
def update_depth (state : LoopDetectionState) (depth : Nat) : LoopDetectionState :=
  { state with depth := max state.depth depth }

/-- Lines 119-120: state.loop_detected = True; state.loop_signature = sig_key. -/
def mark_loop (state : LoopDetectionState) (sig_key : String) : LoopDetectionState :=
  { state with loop_detected := true, loop_signature := some sig_key }

/-- _detect_circular_pattern (lines 195-209): among the last 10 history keys,
look for a pattern of length pl in range(2, min(5, len // 2)) whose last
occurrence is immediately preceded by an identical occurrence. -/
def detect_circular_pattern (state : LoopDetectionState) : Bool :=
  if state.operations.length < 4 then false
  else
    let keys := state.operations.map (fun op => op.operation ++ ":" ++ op.query_hash)
    let recent := keys.drop (keys.length - 10)
    (List.range' 2 (min 5 (recent.length / 2) - 2)).any (fun pl =>
      let pattern := recent.drop (recent.length - pl)
      ((recent.drop (recent.length - 2*pl)).take pl) == pattern)

/-- _detect_loop (lines 166-193): the five detection rules in priority order.
The rapid rule compares fingerprints with sig_key.split(':')[1]. -/
def detect_loop (d : MemoryLoopDetector) (state : LoopDetectionState) (sig_key : String)
    (now : Nat) : Option String :=
  if state.operation_counts sig_key ≥ d.max_repeats then some "exact_repetition"
  else if state.depth ≥ d.max_depth then some "max_depth_exceeded"
  else
    let recent_ops := state.operations.filter (fun op => decide (now - op.timestamp < 5))
    if (recent_ops.filter (fun op => op.query_hash == ((pySplit (Char.ofNat 58) sig_key).getD 1 ""))).length ≥ 3 then
      some "rapid_repetition"
    else if detect_circular_pattern state then some "circular_dependency"
    else if d.global_patterns.contains sig_key then some "global_pattern_repetition"
    else none

/-- Python values appearing in the result dictionaries of the module. -/
inductive PyVal where
  | str : String → PyVal
  | nat : Nat → PyVal
  | bool : Bool → PyVal
  | list : List PyVal → PyVal
  | dict : List (String × PyVal) → PyVal

/-- Dictionary access result[k]. -/
def dict_get (k : String) : PyVal → Option PyVal
  | .dict d => (d.find? (fun p => p.1 == k)).map (fun p => p.2)
  | _ => none

/-- _handle_loop_break (lines 211-253): the terminal result for each loop
category.  state.operation_counts[state.loop_signature] on a defaultdict
yields 0 when loop_signature is None. -/
def handle_loop_break (query : String) (loop_type : String) (state : LoopDetectionState) : PyVal :=
  if loop_type = "exact_repetition" then
    .dict [("results", .list []),
           ("error", .str "Query loop detected - returning empty results"),
           ("loop_info", .dict [("type", .str loop_type),
                                ("repetitions", .nat (match state.loop_signature with
                                                      | some k => state.operation_counts k
                                                      | none => 0))])]
  else if loop_type = "max_depth_exceeded" then
    .dict [("results", .list [.str "[Max depth reached]"]),
           ("partial", .bool true),
           ("depth", .nat state.depth)]
  else if loop_type = "circular_dependency" then
    .dict [("results", .list []),
           ("error", .str "Circular dependency detected"),
           ("chain", .list ((state.operations.drop (state.operations.length - 5)).map
                            (fun op => .str op.query_hash)))]
  else
    .dict [("results", .list []),
           ("error", .str ("Loop detected: " ++ loop_type)),
           ("trace_id", .str state.trace_id)]

/-- _cleanup_old_states (lines 299-312): drop every trace whose state has a
nonempty history whose oldest entry is older than the time window. -/
def cleanup_old_states (states : List (String × LoopDetectionState)) (time_window now : Nat) :
    List (String × LoopDetectionState) :=
  states.filter (fun p =>
    match p.2.operations with
    | [] => true
    | oldest :: _ => decide (now - oldest.timestamp ≤ time_window))

/-- Python substring containment (the "recursive" in query.lower() test). -/
def containsSub (needle : List Char) : List Char → Bool
  | [] => needle.isEmpty
  | c :: rest => needle.isPrefixOf (c :: rest) || containsSub needle rest

/-- What one entry-point call returns: the result dictionary and the loop
category the classifier chose for this call (None when the call passed). -/
structure CallOut where
  result : PyVal
  loop_type : Option String

/-- _perform_memory_operation (lines 255-285), parametrised by the function
used for the recursive re-entry into memory_search_with_loop_detection. -/
def perform_body
    (rec : MemoryLoopDetector → String → String → String → Nat → Nat → MemoryLoopDetector × CallOut)
    (d : MemoryLoopDetector) (trace_id query operation : String) (depth now : Nat) :
    MemoryLoopDetector × PyVal :=
  if operation == "search" then
    if containsSub "recursive".data (pyLower query).data && decide (depth < 3) then
      let r := rec d trace_id (query ++ "_expanded") "search" (depth + 1) now
      (r.1, .dict [("results", .list [.str "main_result"]), ("sub_results", r.2.result)])
    else
      (d, .dict [("results", .list [.str ("result_for_" ++ query)])])
  else if operation == "expand" then
    (d, .dict [("expanded", .str (query ++ "_expanded")), ("continue", .bool (decide (depth < 2)))])
  else
    (d, .dict [("data", .str query)])

/-- Lines 118-142: the arm taken when the classifier returned a category:
mark the state (loop_detected, loop_signature), store it back, and return the
break-policy result; nothing is appended and no count is incremented. -/
def loop_break_branch (d : MemoryLoopDetector) (states0 : List (String × LoopDetectionState))
    (trace_id query : String) (state1 : LoopDetectionState) (sig_key lt : String) :
    MemoryLoopDetector × CallOut :=
  ({ d with states := set_state states0 trace_id (mark_loop state1 sig_key) },
   { result := handle_loop_break query lt (mark_loop state1 sig_key),
     loop_type := some lt })

/-- Lines 144-164: the arm taken when no loop was detected: append the
signature to the history, bump its count, run the (possibly recursive) memory
operation, then opportunistically clean up expired states. -/
def record_branch
    (rec : MemoryLoopDetector → String → String → String → Nat → Nat → MemoryLoopDetector × CallOut)
    (d : MemoryLoopDetector) (states0 : List (String × LoopDetectionState))
    (trace_id query operation : String) (state1 : LoopDetectionState)
    (sig : OperationSignature) (sig_key : String) (depth now : Nat) :
    MemoryLoopDetector × CallOut :=
  let state2 := { state1 with
    operations := state1.operations ++ [sig],
    operation_counts := fun k =>
      if k == sig_key then state1.operation_counts k + 1 else state1.operation_counts k }
  let d1 := { d with states := set_state states0 trace_id state2 }
  let r := perform_body rec d1 trace_id query operation depth now
  ({ r.1 with states := cleanup_old_states r.1.states r.1.time_window now },
   { result := r.2, loop_type := none })

/-- memory_search_with_loop_detection (lines 81-164): get or create the trace
state, update its depth, build the signature key, classify; on a loop, the
loop_break_branch arm; otherwise the record_branch arm.  The fuel argument
bounds the recursive re-entry; the code bounds it by depth < 3, so fuel 4 is
never exhausted from a fresh call. -/
def memory_search_with_loop_detection :
    Nat → MemoryLoopDetector → String → String → String → Nat → Nat →
    MemoryLoopDetector × CallOut
  | 0, d, _, _, _, _, _ => (d, { result := .dict [], loop_type := none })
  | fuel + 1, d, trace_id, query, operation, depth, now =>
    let p := get_or_create d.states trace_id
    let state1 := update_depth p.2 depth
    let sig := OperationSignature.from_query operation query now
    let sig_key := sig.operation ++ ":" ++ sig.query_hash
    match detect_loop d state1 sig_key now with
    | some lt => loop_break_branch d p.1 trace_id query state1 sig_key lt
    | none =>
      record_branch (memory_search_with_loop_detection fuel) d p.1 trace_id query operation
        state1 sig sig_key depth now

/-- _perform_memory_operation with the recursive re-entry at the given fuel. -/
def perform_memory_operation (fuel : Nat) (d : MemoryLoopDetector)
    (trace_id query operation : String) (depth now : Nat) : MemoryLoopDetector × PyVal :=
  perform_body (memory_search_with_loop_detection fuel) d trace_id query operation depth now

/-- The snapshot get_loop_statistics returns (lines 314-331). -/
structure LoopStats where
  total_loops_detected : Nat
  active_traces : Nat
  loop_types : String → Nat
  max_depth_seen : Nat

/-- get_loop_statistics (lines 314-331): counts over the current state store. -/
def get_loop_statistics (d : MemoryLoopDetector) : LoopStats :=
  { total_loops_detected := (d.states.filter (fun p => p.2.loop_detected)).length,
    active_traces := d.states.length,
    loop_types := fun op_type =>
      (d.states.filter (fun p =>
        match p.2.loop_signature with
        | some sig => (pySplit (Char.ofNat 58) sig).getD 0 "" == op_type
        | none => false)).length,
    max_depth_seen := (d.states.map (fun p => p.2.depth)).foldr max 0 }

/-- One entry-point call as issued by a driver: trace id, query, operation,
caller-supplied depth and wall-clock time. -/
structure CallIn where
  trace_id : String
  query : String
  operation : String
  depth : Nat
  now : Nat

/-- Run a sequence of entry-point calls against a detector, collecting the
outputs in order.  Fuel 4 suffices for the depth < 3 bounded recursion. -/
def runCalls (d : MemoryLoopDetector) : List CallIn → MemoryLoopDetector × List CallOut
  | [] => (d, [])
  | c :: rest =>
    let r := memory_search_with_loop_detection 4 d c.trace_id c.query c.operation c.depth c.now
    let rr := runCalls r.1 rest
    (rr.1, r.2 :: rr.2)

/-- The five identical calls of claim C1 (the simulation scenario: query
"find similar documents", operation "search", one trace, immediate succession). -/
def c1_calls : List CallIn :=
  List.replicate 5 { trace_id := "t", query := "find similar documents",
                     operation := "search", depth := 0, now := 0 }

/-- The first n calls of the repeating A, B, C pattern of claim C2
(queries query_a, query_b, query_c as in the simulation scenario). -/
def abc_calls (n : Nat) : List CallIn :=
  (List.range n).map (fun i =>
    { trace_id := "t", query := ["query_a", "query_b", "query_c"].getD (i % 3) "",
      operation := "search", depth := 0, now := 0 })

/-- C1 (counterexample): with max_depth = 5 and max_repeats = 3, five identical
calls (query "find similar documents", operation "search", one trace, immediate
succession) do NOT classify as None, None, exact_repetition, exact_repetition,
exact_repetition: the classifier tests the repeat count before recording the
current call, so the third call still sees a count of 2 and passes. -/
theorem c1_spec_timeline_counterexample :
    ((runCalls (MemoryLoopDetector.mk0 5 3 60) c1_calls).2.map (fun o => o.loop_type)) ≠
      [none, none, some "exact_repetition", some "exact_repetition", some "exact_repetition"] := by
  decide

/-- C1 (amended): with max_depth = 5 and max_repeats = 3, five identical calls
on one trace in immediate succession classify as None, None, None,
exact_repetition, exact_repetition: exact repetition first fires on the
(max_repeats + 1)-th call, because the count the classifier compares against
max_repeats is incremented only after a call passes. -/
theorem c1_amended_exact_repetition_timeline :
    ((runCalls (MemoryLoopDetector.mk0 5 3 60) c1_calls).2.map (fun o => o.loop_type)) =
      [none, none, none, some "exact_repetition", some "exact_repetition"] := by
  decide

/-- C2 (code behavior at the failing input): submitting A, B, C, A, B, C (three
distinct operation and query pairs, repeated once, same trace, immediate
succession, detector max_depth = 5, max_repeats = 3) yields NO loop
classification on any of the six calls: _detect_circular_pattern only scans the
history recorded BEFORE the current call and its pattern-length range
range(2, min(5, len // 2)) is empty until the history holds 6 entries, and even
then excludes the half-length pattern.  Continuing the same A, B, C pattern,
circular_dependency first fires on the 9th call, whose prior history of 8
entries ends with the length-3 pattern doubled. -/
theorem c2_circular_detection_behavior :
    ((runCalls (MemoryLoopDetector.mk0 5 3 60) (abc_calls 6)).2.map (fun o => o.loop_type)) =
      [none, none, none, none, none, none] ∧
    ((runCalls (MemoryLoopDetector.mk0 5 3 60) (abc_calls 9)).2.map (fun o => o.loop_type)) =
      [none, none, none, none, none, none, none, none, some "circular_dependency"] := by
  constructor
  · decide
  · decide

/-- C3 (counterexample): with the default configuration (max_depth 10,
max_repeats 5), three calls with the same query fingerprint on one trace
within a 5-second window do NOT trigger rapid_repetition on any of the three:
the rule needs 3 matching entries already in the history, and the third call
only sees 2. -/
theorem c3_three_calls_no_rapid :
    ¬ (some "rapid_repetition" ∈
        ((runCalls (MemoryLoopDetector.mk0 10 5 60)
          (List.replicate 3 { trace_id := "t", query := "q", operation := "search",
                              depth := 0, now := 0 })).2.map (fun o => o.loop_type))) := by
  decide

/-- C3 (amended): once three calls with the same fingerprint have been recorded
within the 5-second window, the NEXT call carrying that fingerprint is
classified rapid_repetition, even though its repeat count (3) is still below
max_repeats (5): with the default configuration, four identical immediate
calls classify as None, None, None, rapid_repetition. -/
theorem c3_amended_rapid_on_fourth_call :
    ((runCalls (MemoryLoopDetector.mk0 10 5 60)
        (List.replicate 4 { trace_id := "t", query := "q", operation := "search",
                            depth := 0, now := 0 })).2.map (fun o => o.loop_type)) =
      [none, none, none, some "rapid_repetition"] := by
  decide

/-- C4 (counterexample): max_depth_exceeded does not keep firing for every
later call with depth at least D once it has fired at depth D.  With
max_depth = 5 and max_repeats = 3: three calls with query "qa" at depth 0
classify None and drive the count of "qa" to 3; a call with query "qb" at
depth 5 fires max_depth_exceeded (D = 5); but the next call, with query "qa"
at the same depth 5, classifies exact_repetition, because the exact-repetition
rule has priority over the depth rule. -/
theorem c4_exact_preempts_depth :
    ((runCalls (MemoryLoopDetector.mk0 5 3 60)
        (List.replicate 3 { trace_id := "t", query := "qa", operation := "search",
                            depth := 0, now := 0 } ++
         [{ trace_id := "t", query := "qb", operation := "search", depth := 5, now := 0 },
          { trace_id := "t", query := "qa", operation := "search", depth := 5, now := 0 }])).2.map
      (fun o => o.loop_type)) =
      [none, none, none, some "max_depth_exceeded", some "exact_repetition"] := by
  decide

/-- C6 (counterexample): state is NOT evicted once the window has elapsed with
no intervening calls.  With max_depth = 5, max_repeats = 3, window = 60
seconds: three identical calls at time 0 leave a state with count 3; the trace
state is still in the store afterwards; and the next call for the same trace
at time 100 (well past the window) reuses that stale state and is classified
exact_repetition, instead of operating on fresh zeroed state (which would have
classified None).  Lookup precedes cleanup, and cleanup only runs at the end
of a call that passed. -/
theorem c6_stale_state_counterexample :
    (find_state (runCalls (MemoryLoopDetector.mk0 5 3 60)
        (List.replicate 3 { trace_id := "t", query := "qa", operation := "search",
                            depth := 0, now := 0 })).1.states "t").isSome = true ∧
    ((runCalls (MemoryLoopDetector.mk0 5 3 60)
        (List.replicate 3 { trace_id := "t", query := "qa", operation := "search",
                            depth := 0, now := 0 } ++
         [{ trace_id := "t", query := "qa", operation := "search", depth := 0, now := 100 }])).2.map
      (fun o => o.loop_type)) =
      [none, none, none, some "exact_repetition"] := by
  constructor
  · decide
  · decide

theorem search_zero (d : MemoryLoopDetector) (tid q op : String) (dep now : Nat) :
    memory_search_with_loop_detection 0 d tid q op dep now =
      (d, { result := .dict [], loop_type := none }) := rfl

theorem search_succ_some (fuel : Nat) (d : MemoryLoopDetector) (tid q op : String)
    (dep now : Nat) (c : String)
    (h : detect_loop d (update_depth (get_or_create d.states tid).2 dep)
          (op ++ ":" ++ md5hex8 (pyStrip (pyLower q))) now = some c) :
    memory_search_with_loop_detection (fuel + 1) d tid q op dep now =
      loop_break_branch d (get_or_create d.states tid).1 tid q
        (update_depth (get_or_create d.states tid).2 dep)
        (op ++ ":" ++ md5hex8 (pyStrip (pyLower q))) c := by
  have e := memory_search_with_loop_detection.eq_2 d tid q op dep now fuel
  simp only [OperationSignature.from_query] at e
  rw [h] at e
  exact e

theorem search_succ_none (fuel : Nat) (d : MemoryLoopDetector) (tid q op : String)
    (dep now : Nat)
    (h : detect_loop d (update_depth (get_or_create d.states tid).2 dep)
          (op ++ ":" ++ md5hex8 (pyStrip (pyLower q))) now = none) :
    memory_search_with_loop_detection (fuel + 1) d tid q op dep now =
      record_branch (memory_search_with_loop_detection fuel) d (get_or_create d.states tid).1
        tid q op (update_depth (get_or_create d.states tid).2 dep)
        (OperationSignature.from_query op q now)
        (op ++ ":" ++ md5hex8 (pyStrip (pyLower q))) dep now := by
  have e := memory_search_with_loop_detection.eq_2 d tid q op dep now fuel
  simp only [OperationSignature.from_query] at e
  rw [h] at e
  exact e

theorem find_state_cons (p : String × LoopDetectionState) (rest : List (String × LoopDetectionState))
    (t : String) :
    find_state (p :: rest) t = if p.1 == t then some p.2 else find_state rest t := by
  cases h : (p.1 == t) with
  | true => simp [find_state, List.find?_cons, h]
  | false => simp [find_state, List.find?_cons, h]

theorem set_state_nil (t : String) (s : LoopDetectionState) : set_state [] t s = [] := rfl

theorem set_state_cons (p : String × LoopDetectionState) (rest : List (String × LoopDetectionState))
    (t : String) (s : LoopDetectionState) :
    set_state (p :: rest) t s = (if p.1 == t then (t, s) else p) :: set_state rest t s := rfl

theorem find_state_set_self (l : List (String × LoopDetectionState)) (t : String)
    (s0 s' : LoopDetectionState) (h : find_state l t = some s0) :
    find_state (set_state l t s') t = some s' := by
  induction l with
  | nil => simp [find_state] at h
  | cons p rest ih =>
    rw [find_state_cons] at h
    rw [set_state_cons]
    by_cases hp : (p.1 == t) = true
    · rw [if_pos hp, find_state_cons]
      simp
    · rw [if_neg hp] at h
      rw [if_neg hp, find_state_cons, if_neg hp]
      exact ih h

theorem find_state_set_ne (l : List (String × LoopDetectionState)) (t t' : String)
    (s' : LoopDetectionState) (hne : t' ≠ t) :
    find_state (set_state l t s') t' = find_state l t' := by
  induction l with
  | nil => rfl
  | cons p rest ih =>
    rw [set_state_cons]
    by_cases hp : (p.1 == t) = true
    · rw [if_pos hp, find_state_cons, find_state_cons]
      have h1 : (t == t') = false := by
        simp only [beq_eq_false_iff_ne]
        exact fun e => hne e.symm
      have h2 : (p.1 == t') = false := by
        simp only [beq_eq_false_iff_ne]
        have : p.1 = t := by simpa using hp
        rw [this]
        exact fun e => hne e.symm
      rw [h1, h2]
      simp only [if_false, Bool.false_eq_true, ite_false]
      exact ih
    · rw [if_neg hp, find_state_cons, find_state_cons]
      by_cases hp' : (p.1 == t') = true
      · rw [if_pos hp', if_pos hp']
      · rw [if_neg hp', if_neg hp']
        exact ih

theorem find_state_append (l1 l2 : List (String × LoopDetectionState)) (t : String) :
    find_state (l1 ++ l2) t =
      match find_state l1 t with
      | some s => some s
      | none => find_state l2 t := by
  induction l1 with
  | nil => rfl
  | cons p rest ih =>
    rw [List.cons_append, find_state_cons, find_state_cons]
    by_cases hp : (p.1 == t) = true
    · rw [if_pos hp, if_pos hp]
    · rw [if_neg hp, if_neg hp]
      exact ih

theorem get_or_create_of_found (l : List (String × LoopDetectionState)) (t : String)
    (s : LoopDetectionState) (h : find_state l t = some s) : get_or_create l t = (l, s) := by
  unfold get_or_create
  rw [h]

theorem get_or_create_of_missing (l : List (String × LoopDetectionState)) (t : String)
    (h : find_state l t = none) :
    get_or_create l t = (l ++ [(t, LoopDetectionState.init t)], LoopDetectionState.init t) := by
  unfold get_or_create
  rw [h]

theorem find_state_get_or_create_self (l : List (String × LoopDetectionState)) (t : String) :
    find_state (get_or_create l t).1 t = some (get_or_create l t).2 := by
  cases h : find_state l t with
  | some s => rw [get_or_create_of_found l t s h]; exact h
  | none =>
    rw [get_or_create_of_missing l t h, find_state_append, h, find_state_cons]
    simp

theorem find_state_get_or_create_ne (l : List (String × LoopDetectionState)) (t t' : String)
    (hne : t' ≠ t) :
    find_state (get_or_create l t).1 t' = find_state l t' := by
  cases h : find_state l t with
  | some s => rw [get_or_create_of_found l t s h]
  | none =>
    rw [get_or_create_of_missing l t h, find_state_append]
    cases h' : find_state l t' with
    | some s => rfl
    | none =>
      rw [find_state_cons]
      have : (t == t') = false := by
        simp only [beq_eq_false_iff_ne]
        exact fun e => hne e.symm
      rw [this]
      simp [find_state]

theorem cleanup_cons (p : String × LoopDetectionState) (rest : List (String × LoopDetectionState))
    (w now : Nat) :
    cleanup_old_states (p :: rest) w now =
      if (match p.2.operations with
          | [] => true
          | oldest :: _ => decide (now - oldest.timestamp ≤ w)) = true then
        p :: cleanup_old_states rest w now
      else cleanup_old_states rest w now := by
  unfold cleanup_old_states
  rw [List.filter_cons]

theorem cleanup_keeps_empty_history (l : List (String × LoopDetectionState)) (w now : Nat)
    (t : String) (s : LoopDetectionState) (h : find_state l t = some s)
    (he : s.operations = []) :
    find_state (cleanup_old_states l w now) t = some s := by
  induction l with
  | nil => simp [find_state] at h
  | cons p rest ih =>
    rw [find_state_cons] at h
    rw [cleanup_cons]
    by_cases hp : (p.1 == t) = true
    · rw [if_pos hp] at h
      injection h with h2
      rw [h2, he]
      simp only [ite_true]
      rw [find_state_cons, if_pos hp, h2]
    · rw [if_neg hp] at h
      by_cases hk : (match p.2.operations with
          | [] => true
          | oldest :: _ => decide (now - oldest.timestamp ≤ w)) = true
      · rw [if_pos hk, find_state_cons, if_neg hp]
        exact ih h
      · rw [if_neg hk]
        exact ih h

theorem detect_loop_exact_hit (d : MemoryLoopDetector) (s : LoopDetectionState) (k : String)
    (now : Nat) (h : s.operation_counts k ≥ d.max_repeats) :
    detect_loop d s k now = some "exact_repetition" := by
  unfold detect_loop
  rw [if_pos h]

theorem detect_loop_depth_hit (d : MemoryLoopDetector) (s : LoopDetectionState) (k : String)
    (now : Nat) (h1 : s.operation_counts k < d.max_repeats) (h2 : s.depth ≥ d.max_depth) :
    detect_loop d s k now = some "max_depth_exceeded" := by
  unfold detect_loop
  rw [if_neg (Nat.not_le.mpr h1), if_pos h2]

theorem detect_loop_fires_of_depth (d : MemoryLoopDetector) (s : LoopDetectionState) (k : String)
    (now : Nat) (h2 : s.depth ≥ d.max_depth) :
    detect_loop d s k now = some "exact_repetition" ∨
    detect_loop d s k now = some "max_depth_exceeded" := by
  by_cases h1 : s.operation_counts k ≥ d.max_repeats
  · exact Or.inl (detect_loop_exact_hit d s k now h1)
  · exact Or.inr (detect_loop_depth_hit d s k now (Nat.not_le.mp h1) h2)

theorem detect_loop_no_depth_below (d : MemoryLoopDetector) (s : LoopDetectionState) (k : String)
    (now : Nat) (hd : s.depth < d.max_depth) :
    detect_loop d s k now ≠ some "max_depth_exceeded" := by
  unfold detect_loop
  dsimp only
  split_ifs with h1 h2 h3 h4 h5 <;> first | omega | decide

theorem detect_loop_no_global_of_empty (d : MemoryLoopDetector) (s : LoopDetectionState)
    (k : String) (now : Nat) (hg : d.global_patterns = []) :
    detect_loop d s k now ≠ some "global_pattern_repetition" := by
  unfold detect_loop
  rw [hg]
  dsimp only
  split_ifs with h1 h2 h3 h4 h5 <;> first | decide | simp at h5

theorem perform_body_detector_cases
    (rec : MemoryLoopDetector → String → String → String → Nat → Nat → MemoryLoopDetector × CallOut)
    (d : MemoryLoopDetector) (tid q op : String) (dep now : Nat) :
    (perform_body rec d tid q op dep now).1 = d ∨
    (perform_body rec d tid q op dep now).1 =
      (rec d tid (q ++ "_expanded") "search" (dep + 1) now).1 := by
  unfold perform_body
  split_ifs <;> dsimp only <;> first | (left; rfl) | (right; rfl)

theorem search_preserves_config : ∀ (fuel : Nat) (d : MemoryLoopDetector) (tid q op : String)
    (dep now : Nat),
    (memory_search_with_loop_detection fuel d tid q op dep now).1.max_depth = d.max_depth ∧
    (memory_search_with_loop_detection fuel d tid q op dep now).1.max_repeats = d.max_repeats ∧
    (memory_search_with_loop_detection fuel d tid q op dep now).1.time_window = d.time_window ∧
    (memory_search_with_loop_detection fuel d tid q op dep now).1.global_patterns = d.global_patterns := by
  intro fuel
  induction fuel with
  | zero => intro d tid q op dep now; exact ⟨rfl, rfl, rfl, rfl⟩
  | succ n ih =>
    intro d tid q op dep now
    cases hdet : detect_loop d (update_depth (get_or_create d.states tid).2 dep)
        (op ++ ":" ++ md5hex8 (pyStrip (pyLower q))) now with
    | some c =>
      rw [search_succ_some n d tid q op dep now c hdet]
      exact ⟨rfl, rfl, rfl, rfl⟩
    | none =>
      rw [search_succ_none n d tid q op dep now hdet]
      unfold record_branch
      dsimp only
      rcases perform_body_detector_cases (memory_search_with_loop_detection n) _ tid q op dep now
        with hc | hc
      · rw [hc]
        exact ⟨rfl, rfl, rfl, rfl⟩
      · rw [hc]
        obtain ⟨e1, e2, e3, e4⟩ := ih _ tid (q ++ "_expanded") "search" (dep + 1) now
        exact ⟨e1, e2, e3, e4⟩

theorem search_no_global_type (fuel : Nat) (d : MemoryLoopDetector) (tid q op : String)
    (dep now : Nat) (hg : d.global_patterns = []) :
    (memory_search_with_loop_detection fuel d tid q op dep now).2.loop_type ≠
      some "global_pattern_repetition" := by
  cases fuel with
  | zero =>
    rw [search_zero]
    simp
  | succ n =>
    cases hdet : detect_loop d (update_depth (get_or_create d.states tid).2 dep)
        (op ++ ":" ++ md5hex8 (pyStrip (pyLower q))) now with
    | some c =>
      rw [search_succ_some n d tid q op dep now c hdet]
      unfold loop_break_branch
      dsimp only
      intro hcontra
      injection hcontra with hc
      rw [hc] at hdet
      exact detect_loop_no_global_of_empty d _ _ now hg hdet
    | none =>
      rw [search_succ_none n d tid q op dep now hdet]
      unfold record_branch
      dsimp only
      simp

theorem runCalls_cons (d : MemoryLoopDetector) (c : CallIn) (rest : List CallIn) :
    runCalls d (c :: rest) =
      ((runCalls (memory_search_with_loop_detection 4 d c.trace_id c.query c.operation c.depth c.now).1 rest).1,
       (memory_search_with_loop_detection 4 d c.trace_id c.query c.operation c.depth c.now).2 ::
       (runCalls (memory_search_with_loop_detection 4 d c.trace_id c.query c.operation c.depth c.now).1 rest).2) := by
  rw [runCalls]

theorem runCalls_preserves_global : ∀ (calls : List CallIn) (d : MemoryLoopDetector),
    (runCalls d calls).1.global_patterns = d.global_patterns := by
  intro calls
  induction calls with
  | nil => intro d; rfl
  | cons c rest ih =>
    intro d
    rw [runCalls_cons]
    dsimp only
    rw [ih]
    exact (search_preserves_config 4 d c.trace_id c.query c.operation c.depth c.now).2.2.2

theorem runCalls_no_global_type : ∀ (calls : List CallIn) (d : MemoryLoopDetector),
    d.global_patterns = [] → ∀ i : Nat,
    (((runCalls d calls).2.map (fun o => o.loop_type)).getD i none) ≠
      some "global_pattern_repetition" := by
  intro calls
  induction calls with
  | nil =>
    intro d _ i
    simp [runCalls]
  | cons c rest ih =>
    intro d hg i
    rw [runCalls_cons]
    dsimp only
    cases i with
    | zero =>
      exact search_no_global_type 4 d c.trace_id c.query c.operation c.depth c.now hg
    | succ j =>
      have hg' : (memory_search_with_loop_detection 4 d c.trace_id c.query c.operation
          c.depth c.now).1.global_patterns = [] := by
        rw [(search_preserves_config 4 d c.trace_id c.query c.operation c.depth c.now).2.2.2]
        exact hg
      exact ih _ hg' j

theorem search_keeps_empty_trace : ∀ (fuel : Nat) (d : MemoryLoopDetector) (tid q op : String)
    (dep now : Nat) (t : String) (s : LoopDetectionState),
    find_state d.states t = some s → s.operations = [] → s.depth ≥ d.max_depth →
    ∃ s', find_state (memory_search_with_loop_detection fuel d tid q op dep now).1.states t = some s' ∧
      s'.operations = [] ∧ s'.depth ≥ d.max_depth := by
  intro fuel
  induction fuel with
  | zero =>
    intro d tid q op dep now t s hf he hd
    exact ⟨s, hf, he, hd⟩
  | succ n ih =>
    intro d tid q op dep now t s hf he hd
    by_cases ht : t = tid
    · subst ht
      have hgoc : get_or_create d.states t = (d.states, s) := get_or_create_of_found _ _ _ hf
      have hdep : (update_depth (get_or_create d.states t).2 dep).depth ≥ d.max_depth := by
        rw [hgoc]
        exact le_trans hd (Nat.le_max_left s.depth dep)
      rcases detect_loop_fires_of_depth d (update_depth (get_or_create d.states t).2 dep)
          (op ++ ":" ++ md5hex8 (pyStrip (pyLower q))) now hdep with hc | hc <;>
      · rw [search_succ_some n d t q op dep now _ hc]
        unfold loop_break_branch
        dsimp only
        rw [hgoc]
        refine ⟨mark_loop (update_depth s dep) (op ++ ":" ++ md5hex8 (pyStrip (pyLower q))), ?_, he, ?_⟩
        · exact find_state_set_self d.states t s _ hf
        · exact le_trans hd (Nat.le_max_left s.depth dep)
    · cases hdet : detect_loop d (update_depth (get_or_create d.states tid).2 dep)
          (op ++ ":" ++ md5hex8 (pyStrip (pyLower q))) now with
      | some c =>
        rw [search_succ_some n d tid q op dep now c hdet]
        unfold loop_break_branch
        dsimp only
        refine ⟨s, ?_, he, hd⟩
        rw [find_state_set_ne _ _ _ _ ht, find_state_get_or_create_ne _ _ _ ht]
        exact hf
      | none =>
        rw [search_succ_none n d tid q op dep now hdet]
        unfold record_branch
        dsimp only
        rcases perform_body_detector_cases (memory_search_with_loop_detection n) _ tid q op dep now
          with hc | hc
        · rw [hc]
          refine ⟨s, ?_, he, hd⟩
          apply cleanup_keeps_empty_history _ _ _ _ _ _ he
          show find_state (set_state (get_or_create d.states tid).1 tid _) t = some s
          rw [find_state_set_ne _ _ _ _ ht, find_state_get_or_create_ne _ _ _ ht]
          exact hf
        · rw [hc]
          have hfD1 : find_state (set_state (get_or_create d.states tid).1 tid
              { update_depth (get_or_create d.states tid).2 dep with
                operations := (update_depth (get_or_create d.states tid).2 dep).operations ++
                  [OperationSignature.from_query op q now],
                operation_counts := fun k =>
                  if k == op ++ ":" ++ md5hex8 (pyStrip (pyLower q)) then
                    (update_depth (get_or_create d.states tid).2 dep).operation_counts k + 1
                  else (update_depth (get_or_create d.states tid).2 dep).operation_counts k }) t
              = some s := by
            rw [find_state_set_ne _ _ _ _ ht, find_state_get_or_create_ne _ _ _ ht]
            exact hf
          obtain ⟨s', hs', he', hd'⟩ :=
            ih { d with states := (set_state (get_or_create d.states tid).1 tid
                  { update_depth (get_or_create d.states tid).2 dep with
                    operations := (update_depth (get_or_create d.states tid).2 dep).operations ++
                      [OperationSignature.from_query op q now],
                    operation_counts := fun k =>
                      if k == op ++ ":" ++ md5hex8 (pyStrip (pyLower q)) then
                        (update_depth (get_or_create d.states tid).2 dep).operation_counts k + 1
                      else (update_depth (get_or_create d.states tid).2 dep).operation_counts k }) }
              tid (q ++ "_expanded") "search" (dep + 1) now t s hfD1 he hd
          refine ⟨s', ?_, he', hd'⟩
          exact cleanup_keeps_empty_history _ _ _ _ _ hs' he'

/-- C4 (amended): each call updates the recorded depth of the trace to the
maximum of the recorded value and the caller-supplied depth, so the recorded
depth is monotonically non-decreasing; whenever the updated depth reaches
max_depth the classifier returns a loop category, and that category is
max_depth_exceeded unless the exact-repetition rule pre-empts it (repeat count
of the submitted key at least max_repeats); and max_depth_exceeded is never
returned while the updated depth is below max_depth. -/
theorem c4_amended_depth_monotonic (d : MemoryLoopDetector) (s : LoopDetectionState)
    (k : String) (dep now : Nat) :
    (update_depth s dep).depth = max s.depth dep ∧
    s.depth ≤ (update_depth s dep).depth ∧
    (d.max_depth ≤ max s.depth dep → s.operation_counts k < d.max_repeats →
      detect_loop d (update_depth s dep) k now = some "max_depth_exceeded") ∧
    (d.max_depth ≤ max s.depth dep →
      detect_loop d (update_depth s dep) k now = some "exact_repetition" ∨
      detect_loop d (update_depth s dep) k now = some "max_depth_exceeded") ∧
    (max s.depth dep < d.max_depth →
      detect_loop d (update_depth s dep) k now ≠ some "max_depth_exceeded") := by
  refine ⟨rfl, Nat.le_max_left s.depth dep, ?_, ?_, ?_⟩
  · intro hdep hcnt
    exact detect_loop_depth_hit d _ k now hcnt hdep
  · intro hdep
    exact detect_loop_fires_of_depth d _ k now hdep
  · intro hdep
    exact detect_loop_no_depth_below d _ k now hdep

/-- C4 (witness): with max_depth = 5, a fresh state updated to supplied
depth 5 and a key with count 0 classifies as max_depth_exceeded. -/
theorem c4_depth_witness :
    detect_loop (MemoryLoopDetector.mk0 5 3 60) (update_depth (LoopDetectionState.init "t") 5)
      "search:k" 0 = some "max_depth_exceeded" :=
  (c4_amended_depth_monotonic (MemoryLoopDetector.mk0 5 3 60) (LoopDetectionState.init "t")
    "search:k" 5 0).2.2.1 (by decide) (by decide)

/-- C5: for every operation and every pair of queries that agree after
lower-casing and stripping surrounding whitespace (the code normalizes with
query.lower().strip()), the signature builder produces equal query
fingerprints, and hence equal composite operation:fingerprint keys,
independently of the timestamps. -/
theorem c5_fingerprint_normalization (op q1 q2 : String) (n1 n2 : Nat)
    (h : pyStrip (pyLower q1) = pyStrip (pyLower q2)) :
    (OperationSignature.from_query op q1 n1).query_hash =
      (OperationSignature.from_query op q2 n2).query_hash ∧
    (OperationSignature.from_query op q1 n1).operation ++ ":" ++
        (OperationSignature.from_query op q1 n1).query_hash =
      (OperationSignature.from_query op q2 n2).operation ++ ":" ++
        (OperationSignature.from_query op q2 n2).query_hash := by
  unfold OperationSignature.from_query
  dsimp only
  rw [h]
  exact ⟨rfl, rfl⟩

/-- C5 (witness): signature("search", "Docker Error") and
signature("search", "  docker error  ") share one fingerprint. -/
theorem c5_docker_error_witness :
    (OperationSignature.from_query "search" "Docker Error" 0).query_hash =
      (OperationSignature.from_query "search" "  docker error  " 1).query_hash :=
  (c5_fingerprint_normalization "search" "Docker Error" "  docker error  " 0 1 (by decide)).1

/-- C6 (amended): cleanup removes exactly the traces with a nonempty history
whose oldest entry is older than now minus the window (a trace with empty
history is never removed); when a trace id is absent from the store, a call
creates fresh state with empty history, all counts zero, depth zero and no
loop flag; but when the trace id is still present, the call reuses the stored
state unchanged, stale or not, because the lookup precedes cleanup. -/
theorem c6_amended_cleanup_semantics :
    (∀ (l : List (String × LoopDetectionState)) (w now : Nat) (t : String)
       (s : LoopDetectionState),
      ((t, s) ∈ cleanup_old_states l w now ↔
        ((t, s) ∈ l ∧ (match s.operations with
                       | [] => True
                       | oldest :: _ => now - oldest.timestamp ≤ w)))) ∧
    (∀ (l : List (String × LoopDetectionState)) (t : String),
      find_state l t = none →
        get_or_create l t = (l ++ [(t, LoopDetectionState.init t)], LoopDetectionState.init t) ∧
        (LoopDetectionState.init t).operations = [] ∧
        (∀ k, (LoopDetectionState.init t).operation_counts k = 0) ∧
        (LoopDetectionState.init t).depth = 0 ∧
        (LoopDetectionState.init t).loop_detected = false ∧
        (LoopDetectionState.init t).loop_signature = none) ∧
    (∀ (l : List (String × LoopDetectionState)) (t : String) (s : LoopDetectionState),
      find_state l t = some s → get_or_create l t = (l, s)) := by
  refine ⟨?_, ?_, ?_⟩
  · intro l w now t s
    unfold cleanup_old_states
    rw [List.mem_filter]
    cases ho : s.operations with
    | nil => simp [ho]
    | cons o rest => simp [ho]
  · intro l t h
    exact ⟨get_or_create_of_missing l t h, rfl, fun k => rfl, rfl, rfl, rfl⟩
  · intro l t s h
    exact get_or_create_of_found l t s h

/-- C6 (witness): a stored trace state is reused as-is by the lookup that
precedes cleanup. -/
theorem c6_cleanup_witness :
    get_or_create [("t", LoopDetectionState.init "t")] "t" =
      ([("t", LoopDetectionState.init "t")], LoopDetectionState.init "t") :=
  c6_amended_cleanup_semantics.2.2 [("t", LoopDetectionState.init "t")] "t"
    (LoopDetectionState.init "t") rfl

/-- C7: the loop-break handler ignores the query (so it is a deterministic
function of the category and state), and returns: for exact_repetition an
empty result list, an explanatory error and the observed repetition count of
the stored loop signature; for max_depth_exceeded a partial marker with the
depth reached; for circular_dependency an empty result list, an explanatory
error and the fingerprints of the last five history entries; and for any
other category a generic empty result naming the category and the trace id. -/
theorem c7_loop_break_contract :
    (∀ (q q' lt : String) (s : LoopDetectionState),
      handle_loop_break q lt s = handle_loop_break q' lt s) ∧
    (∀ (q : String) (s : LoopDetectionState) (k : String), s.loop_signature = some k →
      dict_get "results" (handle_loop_break q "exact_repetition" s) = some (.list []) ∧
      dict_get "error" (handle_loop_break q "exact_repetition" s) =
        some (.str "Query loop detected - returning empty results") ∧
      dict_get "loop_info" (handle_loop_break q "exact_repetition" s) =
        some (.dict [("type", .str "exact_repetition"),
                     ("repetitions", .nat (s.operation_counts k))])) ∧
    (∀ (q : String) (s : LoopDetectionState),
      dict_get "results" (handle_loop_break q "max_depth_exceeded" s) =
        some (.list [.str "[Max depth reached]"]) ∧
      dict_get "partial" (handle_loop_break q "max_depth_exceeded" s) = some (.bool true) ∧
      dict_get "depth" (handle_loop_break q "max_depth_exceeded" s) = some (.nat s.depth)) ∧
    (∀ (q : String) (s : LoopDetectionState),
      dict_get "results" (handle_loop_break q "circular_dependency" s) = some (.list []) ∧
      dict_get "error" (handle_loop_break q "circular_dependency" s) =
        some (.str "Circular dependency detected") ∧
      dict_get "chain" (handle_loop_break q "circular_dependency" s) =
        some (.list ((s.operations.drop (s.operations.length - 5)).map
          (fun op => .str op.query_hash)))) ∧
    (∀ (q lt : String) (s : LoopDetectionState),
      lt ≠ "exact_repetition" → lt ≠ "max_depth_exceeded" → lt ≠ "circular_dependency" →
      dict_get "results" (handle_loop_break q lt s) = some (.list []) ∧
      dict_get "error" (handle_loop_break q lt s) = some (.str ("Loop detected: " ++ lt)) ∧
      dict_get "trace_id" (handle_loop_break q lt s) = some (.str s.trace_id)) := by
  refine ⟨?_, ?_, ?_, ?_, ?_⟩
  · intro q q' lt s
    rfl
  · intro q s k hk
    have e : handle_loop_break q "exact_repetition" s =
        .dict [("results", .list []),
               ("error", .str "Query loop detected - returning empty results"),
               ("loop_info", .dict [("type", .str "exact_repetition"),
                                    ("repetitions", .nat (match s.loop_signature with
                                                          | some k' => s.operation_counts k'
                                                          | none => 0))])] := rfl
    rw [e, hk]
    exact ⟨rfl, rfl, rfl⟩
  · intro q s
    exact ⟨rfl, rfl, rfl⟩
  · intro q s
    exact ⟨rfl, rfl, rfl⟩
  · intro q lt s h1 h2 h3
    unfold handle_loop_break
    rw [if_neg h1, if_neg h2, if_neg h3]
    exact ⟨rfl, rfl, rfl⟩

/-- C7 (witness): the generic arm at a category outside the three specific
ones names the trace id, and the exact-repetition arm reports the count of
the stored loop signature. -/
theorem c7_loop_break_witness :
    dict_get "trace_id" (handle_loop_break "q" "global_pattern_repetition"
        (LoopDetectionState.init "t")) = some (.str "t") ∧
    dict_get "loop_info" (handle_loop_break "q" "exact_repetition"
        (mark_loop (LoopDetectionState.init "t") "search:k")) =
      some (.dict [("type", .str "exact_repetition"),
                   ("repetitions", .nat ((mark_loop (LoopDetectionState.init "t")
                      "search:k").operation_counts "search:k"))]) :=
  ⟨(c7_loop_break_contract.2.2.2.2 "q" "global_pattern_repetition" (LoopDetectionState.init "t")
      (by decide) (by decide) (by decide)).2.2,
   (c7_loop_break_contract.2.1 "q" (mark_loop (LoopDetectionState.init "t") "search:k")
      "search:k" rfl).2.2⟩

/-- C8: starting from a freshly constructed detector, no sequence of
entry-point calls (statistics queries are pure and mutate nothing in this
embedding) ever adds a key to the global pattern registry: it stays empty,
and consequently no call of the sequence is ever classified as
global_pattern_repetition. -/
theorem c8_global_registry_stays_empty (maxd maxr win : Nat) (calls : List CallIn) :
    (runCalls (MemoryLoopDetector.mk0 maxd maxr win) calls).1.global_patterns = [] ∧
    ∀ i : Nat, (((runCalls (MemoryLoopDetector.mk0 maxd maxr win) calls).2.map
        (fun o => o.loop_type)).getD i none) ≠ some "global_pattern_repetition" := by
  constructor
  · rw [runCalls_preserves_global]
    rfl
  · exact runCalls_no_global_type calls _ rfl

/-- C8 (witness): after one concrete call the registry is still empty and the
call was not classified as a global pattern. -/
theorem c8_registry_witness :
    (runCalls (MemoryLoopDetector.mk0 5 3 60)
      [{ trace_id := "t", query := "q", operation := "search", depth := 0, now := 0 }]).1.global_patterns
        = [] :=
  (c8_global_registry_stays_empty 5 3 60
    [{ trace_id := "t", query := "q", operation := "search", depth := 0, now := 0 }]).1

/-- C9: whenever a call is classified as a loop, that call leaves the history
and the repeat counts of its trace exactly as they were (the marked state
keeps the operations list and the count function of the looked-up state
unchanged, so nothing was appended or incremented), changes only the loop
flag, the stored loop signature and the recorded depth of that trace, leaves
every other trace alone, leaves the global registry alone, and returns the
break-policy result for the detected category. -/
theorem c9_loop_path_frame (fuel : Nat) (d : MemoryLoopDetector) (tid q op : String)
    (dep now : Nat) (c : String)
    (h : (memory_search_with_loop_detection fuel d tid q op dep now).2.loop_type = some c) :
    (memory_search_with_loop_detection fuel d tid q op dep now).1.states =
      set_state (get_or_create d.states tid).1 tid
        (mark_loop (update_depth (get_or_create d.states tid).2 dep)
          (op ++ ":" ++ md5hex8 (pyStrip (pyLower q)))) ∧
    (memory_search_with_loop_detection fuel d tid q op dep now).1.global_patterns =
      d.global_patterns ∧
    (memory_search_with_loop_detection fuel d tid q op dep now).2.result =
      handle_loop_break q c (mark_loop (update_depth (get_or_create d.states tid).2 dep)
        (op ++ ":" ++ md5hex8 (pyStrip (pyLower q)))) ∧
    (mark_loop (update_depth (get_or_create d.states tid).2 dep)
        (op ++ ":" ++ md5hex8 (pyStrip (pyLower q)))).operations =
      (get_or_create d.states tid).2.operations ∧
    (mark_loop (update_depth (get_or_create d.states tid).2 dep)
        (op ++ ":" ++ md5hex8 (pyStrip (pyLower q)))).operation_counts =
      (get_or_create d.states tid).2.operation_counts ∧
    find_state (memory_search_with_loop_detection fuel d tid q op dep now).1.states tid =
      some (mark_loop (update_depth (get_or_create d.states tid).2 dep)
        (op ++ ":" ++ md5hex8 (pyStrip (pyLower q)))) ∧
    (∀ t', t' ≠ tid →
      find_state (memory_search_with_loop_detection fuel d tid q op dep now).1.states t' =
        find_state d.states t') := by
  cases fuel with
  | zero =>
    rw [search_zero] at h
    simp at h
  | succ n =>
    cases hdet : detect_loop d (update_depth (get_or_create d.states tid).2 dep)
        (op ++ ":" ++ md5hex8 (pyStrip (pyLower q))) now with
    | none =>
      rw [search_succ_none n d tid q op dep now hdet] at h
      unfold record_branch at h
      dsimp only at h
      simp at h
    | some c' =>
      rw [search_succ_some n d tid q op dep now c' hdet] at h
      unfold loop_break_branch at h
      dsimp only at h
      injection h with hc
      subst hc
      rw [search_succ_some n d tid q op dep now c' hdet]
      unfold loop_break_branch
      dsimp only
      refine ⟨rfl, rfl, rfl, rfl, rfl, ?_, ?_⟩
      · exact find_state_set_self _ _ _ _ (find_state_get_or_create_self d.states tid)
      · intro t' ht'
        rw [find_state_set_ne _ _ _ _ ht', find_state_get_or_create_ne _ _ _ ht']

/-- C9 (witness): a first call at depth 5 under max_depth 5 is classified as a
loop and leaves the global registry unchanged. -/
theorem c9_frame_witness :
    (memory_search_with_loop_detection 4 (MemoryLoopDetector.mk0 5 3 60)
        "t" "q" "search" 5 0).1.global_patterns =
      (MemoryLoopDetector.mk0 5 3 60).global_patterns :=
  (c9_loop_path_frame 4 (MemoryLoopDetector.mk0 5 3 60) "t" "q" "search" 5 0
    "max_depth_exceeded" (by decide)).2.1

/-- C10: a trace state with empty history is never removed by cleanup; such a
state is reachable (a first call whose supplied depth already meets max_depth
is classified as a loop before anything is appended, leaving depth 5, the
loop flag set and an empty history); any later call on any trace preserves an
empty-history trace whose depth meets the (preserved) max_depth threshold;
and any trace present in the store is counted among the active traces of
every statistics snapshot. -/
theorem c10_empty_history_immortal :
    (∀ (l : List (String × LoopDetectionState)) (w now : Nat) (t : String)
       (s : LoopDetectionState),
      find_state l t = some s → s.operations = [] →
      find_state (cleanup_old_states l w now) t = some s) ∧
    ((find_state (memory_search_with_loop_detection 4 (MemoryLoopDetector.mk0 5 3 60)
        "t" "q" "search" 5 0).1.states "t").map
          (fun s => (s.operations, s.depth, s.loop_detected)) = some ([], 5, true) ∧
     (memory_search_with_loop_detection 4 (MemoryLoopDetector.mk0 5 3 60)
        "t" "q" "search" 5 0).2.loop_type = some "max_depth_exceeded") ∧
    (∀ (fuel : Nat) (d : MemoryLoopDetector) (tid q op : String) (dep now : Nat)
       (t : String) (s : LoopDetectionState),
      find_state d.states t = some s → s.operations = [] → s.depth ≥ d.max_depth →
      ∃ s', find_state (memory_search_with_loop_detection fuel d tid q op dep now).1.states t =
          some s' ∧ s'.operations = [] ∧
        s'.depth ≥ (memory_search_with_loop_detection fuel d tid q op dep now).1.max_depth) ∧
    (∀ (d : MemoryLoopDetector) (t : String) (s : LoopDetectionState),
      find_state d.states t = some s → 1 ≤ (get_loop_statistics d).active_traces) := by
  refine ⟨cleanup_keeps_empty_history, ⟨?_, ?_⟩, ?_, ?_⟩
  · decide
  · decide
  · intro fuel d tid q op dep now t s hf he hd
    obtain ⟨s', h1, h2, h3⟩ := search_keeps_empty_trace fuel d tid q op dep now t s hf he hd
    refine ⟨s', h1, h2, ?_⟩
    rw [(search_preserves_config fuel d tid q op dep now).1]
    exact h3
  · intro d t s hf
    unfold get_loop_statistics
    dsimp only
    cases hst : d.states with
    | nil => rw [hst] at hf; simp [find_state] at hf
    | cons p rest => simp

/-- C10 (witness): cleanup keeps a trace whose history is empty, however old. -/
theorem c10_cleanup_keeps_witness :
    find_state (cleanup_old_states [("t", LoopDetectionState.init "t")] 60 1000) "t" =
      some (LoopDetectionState.init "t") :=
  c10_empty_history_immortal.1 [("t", LoopDetectionState.init "t")] 60 1000 "t"
    (LoopDetectionState.init "t") rfl rfl
